import Mathlib

/-!
Shallow embedding of the EtherCAT fan-control application (src/app.py) and
proofs about it.

Modelling conventions:
* Python floats are modelled as rationals (`ℚ`); every concrete input used in a
  counterexample below is exactly representable in binary floating point, and the
  arithmetic performed on it by the program (division by 10, multiplication by
  32767 of a dyadic value, comparison against decimal constants) is exact there,
  so the rational model agrees with IEEE-754 evaluation on those inputs.
* The mutable globals `master`, `adecua_slave`, `ethercat_status_message` become an
  explicit state record threaded through the operations; the `threading.Lock` is
  not modelled (every modelled operation runs entirely under the lock in the
  source, so each operation is one atomic state transition).
* The pysoem library is the environment: what it would do on each network
  interface during bring-up is an `IfaceEnv` value, and the outcome of one cyclic
  send/receive exchange is an `ExchangeOutcome` value.
* Console `print` calls are not modelled; distinct exit paths of
  `initialize_ethercat_device_logic` (which the source distinguishes by distinct
  console diagnostics and distinct return points) are modelled as distinct
  constructors of `InitExit`, with `InitExit.toBool` giving the Python return value.
* `time.sleep` delays are not modelled (they do not affect any claimed property).
-/

namespace Ceama

/-- Device identification constants, src/app.py lines 14-17. -/
def BECKHOFF_VENDOR_ID : ℕ := 0x00000002

/-- EL4001 product code, src/app.py line 15. -/
def BECKHOFF_AO_PRODUCT_CODE : ℕ := 0x017f017

/-- Output byte offset in the process image, src/app.py line 16. -/
def AO1_OUTPUT_OFFSET : ℕ := 0

/-- Output size in bytes, src/app.py line 17. -/
def AO1_OUTPUT_SIZE : ℕ := 2

/-- Maximum fan speed in km/h, src/app.py line 209. -/
def MAX_KMH : ℚ := 10

/-- Maximum output voltage, src/app.py line 210. -/
def MAX_VOLTAGE : ℚ := 10

/-- Python int() applied to a float/rational: truncation toward zero. -/
def pyInt (q : ℚ) : ℤ := if 0 ≤ q then ⌊q⌋ else -⌊-q⌋

/-- Round to the nearest integer with ties to even, the rounding used by Python
float formatting (and by Python round). -/
def roundHalfEven (q : ℚ) : ℤ :=
  if q - ⌊q⌋ < 1 / 2 then ⌊q⌋
  else if 1 / 2 < q - ⌊q⌋ then ⌊q⌋ + 1
  else if ⌊q⌋ % 2 = 0 then ⌊q⌋ else ⌊q⌋ + 1

/-- Two-digit zero-padded decimal rendering of a natural number below 100. -/
def natPad2 (n : ℕ) : String := if n < 10 then "0" ++ toString n else toString n

/-- Python format specifier .2f: fixed-point rendering with two decimal places. -/
def fmt2 (q : ℚ) : String :=
  let cents := roundHalfEven (q * 100)
  if cents < 0 then
    "-" ++ toString ((-cents).toNat / 100) ++ "." ++ natPad2 ((-cents).toNat % 100)
  else
    toString (cents.toNat / 100) ++ "." ++ natPad2 (cents.toNat % 100)

/-- Python int.to_bytes(2, byteorder=little, signed=True): the two bytes of the
twos-complement 16-bit little-endian encoding. -/
def toBytesLE2Signed (n : ℤ) : List ℕ :=
  [((n % 65536) % 256).toNat, ((n % 65536) / 256).toNat]

/-- Python slice assignment out[AO1_OUTPUT_OFFSET : AO1_OUTPUT_OFFSET+AO1_OUTPUT_SIZE] = bytes,
src/app.py line 173. -/
def writeOutputSlice (out bytes : List ℕ) : List ℕ :=
  out.take AO1_OUTPUT_OFFSET ++ bytes ++ out.drop (AO1_OUTPUT_OFFSET + AO1_OUTPUT_SIZE)

/-- Does the character list pat occur at the head of the haystack. -/
def matchHead : List Char → List Char → Bool
  | _, [] => true
  | [], _ :: _ => false
  | a :: s, b :: p => a == b && matchHead s p

/-- Does pat occur as a contiguous run inside the haystack. -/
def containsSub (pat : List Char) : List Char → Bool
  | [] => pat.isEmpty
  | c :: rest => matchHead (c :: rest) pat || containsSub pat rest

/-- Python membership test pat in s on strings. -/
def strIn (pat s : String) : Bool := containsSub pat.data s.data

/-- EtherCAT slave state machine states (pysoem state constants). -/
inductive SlaveState
  | stInit
  | preOp
  | safeOp
  | operational
  | err
deriving DecidableEq

/-- An open pysoem master bound to one network interface. reportsOperational is
what master.is_state(pysoem.OPERATIONAL_STATE) currently returns. -/
structure MasterHandle where
  iface : String
  reportsOperational : Bool
deriving DecidableEq

/-- A discovered slave device under a master. output is its process-data output
image (a byte list). -/
structure SlaveHandle where
  iface : String
  state : SlaveState
  output : List ℕ
deriving DecidableEq

/-- The mutable module-level state of src/app.py: globals master, adecua_slave,
ethercat_status_message (lines 21-23). -/
structure EcatState where
  master : Option MasterHandle
  adecua_slave : Option SlaveHandle
  ethercat_status_message : String
deriving DecidableEq

/-- The initial state, src/app.py lines 21-23. -/
def initialState : EcatState :=
  { master := none
    adecua_slave := none
    ethercat_status_message := "EtherCAT: Inattivo (Attesa inizializzazione)." }

/-- Descriptor of a slave found during scanning: slave.desc fields used at
src/app.py lines 78-79. -/
structure SlaveDesc where
  vendor_id : ℕ
  product_code : ℕ
deriving DecidableEq

/-- The match test at src/app.py lines 78-79. -/
def matchesEL4001 (d : SlaveDesc) : Bool :=
  d.vendor_id == BECKHOFF_VENDOR_ID && d.product_code == BECKHOFF_AO_PRODUCT_CODE

/-- Environment description of one network interface: what the pysoem library
would do during a bring-up attempt on it. -/
structure IfaceEnv where
  /-- Interface identifier as enumerated by pysoem.master.interfaces. -/
  name : String
  /-- Master creation, config_init and config_dc succeed (no exception raised). -/
  openOk : Bool
  /-- Descriptors of the slaves discovered by the scan at lines 77-82. -/
  descs : List SlaveDesc
  /-- config_map succeeds (line 92). -/
  mapOk : Bool
  /-- The slave reaches SAFEOP_STATE within the 2000 ms timeout (lines 96-100). -/
  safeOpReached : Bool
  /-- The slave reaches OPERATIONAL_STATE within the 2000 ms timeout (lines 104-109). -/
  opReached : Bool
  /-- The output process image established by config_map. -/
  initialOutput : List ℕ
deriving DecidableEq

/-- One bring-up attempt on one interface, src/app.py lines 66-139: any failure
(exception at open/config, no matching slave, config_map failure, SAFEOP or
OPERATIONAL not reached) closes the candidate master and yields none, making the
loop continue with the next interface; success yields the candidate handle pair. -/
def tryInterface (e : IfaceEnv) : Option (MasterHandle × SlaveHandle) :=
  if !e.openOk then none
  else if !(e.descs.any matchesEL4001) then none
  else if !e.mapOk then none
  else if !e.safeOpReached then none
  else if !e.opReached then none
  else some (⟨e.name, true⟩, ⟨e.name, SlaveState.operational, e.initialOutput⟩)

/-- The interface loop of src/app.py lines 66-139: first success wins. Also
returns the names of the interfaces attempted, in order. -/
def tryInterfaces : List IfaceEnv → Option (MasterHandle × SlaveHandle) × List String
  | [] => (none, [])
  | e :: rest =>
    match tryInterface e with
    | some p => (some p, [e.name])
    | none =>
      let r := tryInterfaces rest
      (r.1, e.name :: r.2)

/-- The distinct return points of initialize_ethercat_device_logic. The Python
function returns a bool; the failure exits are distinguished in the source by
distinct console diagnostics (line 58 versus line 141) and distinct code paths. -/
inductive InitExit
  | success
  | noInterfacesFound
  | noWorkingInterfaceFound
deriving DecidableEq

/-- The Python return value of the corresponding exit. -/
def InitExit.toBool : InitExit → Bool
  | .success => true
  | _ => false

/-- initialize_ethercat_device_logic, src/app.py lines 26-144, as a state
transition. interfaces is the list pysoem.master.interfaces together with the
bus environment behind each entry. Returns the exit taken, the new state and the
names of the interfaces attempted in order. -/
def initialize_ethercat_device_logic (interfaces : List IfaceEnv) (st : EcatState) :
    InitExit × EcatState × List String :=
  let st1 :=
    if st.master.isSome then { st with master := none, adecua_slave := none } else st
  if interfaces.isEmpty then (InitExit.noInterfacesFound, st1, [])
  else
    let r := tryInterfaces interfaces
    match r.1 with
    | some p =>
        (InitExit.success, { st1 with master := some p.1, adecua_slave := some p.2 }, r.2)
    | none =>
        (InitExit.noWorkingInterfaceFound,
         { st1 with master := none, adecua_slave := none }, r.2)

/-- Outcome of one cyclic send/receive exchange (src/app.py lines 175-176):
either both calls succeed, or an exception is raised at send_processdata, or at
receive_processdata. msg is the text of the raised exception. The source handles
pysoem.SOEMError and generic exceptions identically (teardown and return False,
lines 182-203); both are covered by the failure constructors. -/
inductive ExchangeOutcome
  | ok
  | failSend (msg : String)
  | failReceive (msg : String)
deriving DecidableEq

/-- The result of send_to_device: the two early returns at lines 156 and 165,
success at line 180, and the exception-handler returns at lines 192 and 203.
The Python function returns a bool (toBool below). -/
inductive SendOutcome
  | notReadyNoHandles
  | notReadyNotOperational
  | okSent
  | busIOError
deriving DecidableEq

/-- The Python return value of the corresponding send_to_device exit. -/
def SendOutcome.toBool : SendOutcome → Bool
  | .okSent => true
  | _ => false

/-- Is this outcome one of the two NotReady early returns. -/
def SendOutcome.isNotReady : SendOutcome → Bool
  | .notReadyNoHandles => true
  | .notReadyNotOperational => true
  | _ => false

/-- Bus-level I/O actions performed by send_to_device, in order: the write into
the process image (line 173) and the two cyclic-exchange calls (lines 175-176). -/
inductive BusAction
  | writeOutputFrame (bytes : List ℕ)
  | sendProcessdata
  | receiveProcessdata
deriving DecidableEq

/-- Rendering of the OK / NOK markers in the status message at line 162. -/
def okNok (b : Bool) : String := if b then "OK" else "NOK"

/-- send_to_device, src/app.py lines 147-203, as a state transition. exch is the
environment: what the cyclic exchange would do. Returns the exit taken, the new
state and the list of bus-level I/O actions actually performed. -/
def send_to_device (exch : ExchangeOutcome) (voltage : ℚ) (st : EcatState) :
    SendOutcome × EcatState × List BusAction :=
  match st.master, st.adecua_slave with
  | none, _ =>
      (SendOutcome.notReadyNoHandles,
       { st with ethercat_status_message :=
           "EtherCAT: Master/Slave non inizializzato. Tentativo riconnessione..." }, [])
  | some _, none =>
      (SendOutcome.notReadyNoHandles,
       { st with ethercat_status_message :=
           "EtherCAT: Master/Slave non inizializzato. Tentativo riconnessione..." }, [])
  | some m, some s =>
    let master_operational := m.reportsOperational
    let slave_operational := s.state == SlaveState.operational
    if !master_operational || !slave_operational then
      (SendOutcome.notReadyNotOperational,
       { st with ethercat_status_message :=
           "EtherCAT: Master: " ++ okNok master_operational ++ ", Slave: " ++
             okNok slave_operational ++ ". Riprovo." }, [])
    else
      let voltage1 := max 0 (min voltage MAX_VOLTAGE)
      let raw0 : ℤ := pyInt ((voltage1 / MAX_VOLTAGE) * 32767)
      let raw_value : ℤ := max 0 (min raw0 32767)
      let raw_value_bytes := toBytesLE2Signed raw_value
      let s1 := { s with output := writeOutputSlice s.output raw_value_bytes }
      match exch with
      | ExchangeOutcome.ok =>
          (SendOutcome.okSent,
           { st with adecua_slave := some s1
                     ethercat_status_message :=
                       "EtherCAT: OK. Ultima tensione: " ++ fmt2 voltage1 ++ " V." },
           [BusAction.writeOutputFrame raw_value_bytes, BusAction.sendProcessdata,
            BusAction.receiveProcessdata])
      | ExchangeOutcome.failSend msg =>
          (SendOutcome.busIOError,
           { st with master := none, adecua_slave := none
                     ethercat_status_message := "EtherCAT: Errore SOEM I/O! " ++ msg },
           [BusAction.writeOutputFrame raw_value_bytes, BusAction.sendProcessdata])
      | ExchangeOutcome.failReceive msg =>
          (SendOutcome.busIOError,
           { st with master := none, adecua_slave := none
                     ethercat_status_message := "EtherCAT: Errore SOEM I/O! " ++ msg },
           [BusAction.writeOutputFrame raw_value_bytes, BusAction.sendProcessdata,
            BusAction.receiveProcessdata])

/-- The health predicate evaluated at src/app.py lines 335-336 (and, in two
steps, at lines 153-160): master exists and reports OPERATIONAL, and the slave
exists with state OPERATIONAL. -/
def linkReady (st : EcatState) : Bool :=
  (match st.master with
   | some m => m.reportsOperational
   | none => false) &&
  (match st.adecua_slave with
   | some s => s.state == SlaveState.operational
   | none => false)

/-- The canonical healthy status message set at lines 342 and 351. -/
def connMsg : String := "EtherCAT: Connesso e in OPERATIONAL."

/-- The substring tested at line 350. -/
def connPhrase : String := "Connesso e in OPERATIONAL"

/-- check_ethercat_status, src/app.py lines 329-355, as a state transition.
timeStr is the time.strftime rendering used in the failure message. Returns the
new state and whether initialize_ethercat_device_logic was invoked. -/
def check_ethercat_status (interfaces : List IfaceEnv) (timeStr : String) (st : EcatState) :
    EcatState × Bool :=
  if !(linkReady st) then
    let r := initialize_ethercat_device_logic interfaces st
    if r.1.toBool then
      ({ r.2.1 with ethercat_status_message := connMsg }, true)
    else
      ({ r.2.1 with ethercat_status_message :=
           "EtherCAT: Disconnesso o Errore durante riconnessione! (" ++ timeStr ++ ")" },
       true)
  else
    if !(strIn connPhrase st.ethercat_status_message) then
      ({ st with ethercat_status_message := connMsg }, false)
    else (st, false)

/-- calculate_voltage, src/app.py lines 223-227. -/
def calculate_voltage (kmh : ℚ) : ℚ :=
  let kmh1 := max 0 (min kmh MAX_KMH)
  (kmh1 / MAX_KMH) * MAX_VOLTAGE

/-- A row of the CSV log, src/app.py line 220: ISO timestamp, speed and voltage
each formatted with two decimal places. -/
structure LogRecord where
  timestamp : String
  kmh : String
  voltage : String
deriving DecidableEq

/-- log_action, src/app.py lines 214-220: append one row to the log file.
timestamp is the datetime.now().isoformat() value. -/
def log_action (timestamp : String) (kmh voltage : ℚ) (log : List LogRecord) :
    List LogRecord :=
  log ++ [{ timestamp := timestamp, kmh := fmt2 kmh, voltage := fmt2 voltage }]

/-- Which button triggered the handle_fan_control callback (line 269). -/
inductive Trigger
  | applyButton
  | stopButton
deriving DecidableEq

/-- The full effect of one handle_fan_control invocation. -/
structure FanControlResult where
  output_kmh_msg : String
  output_volt_msg : String
  status_msg : String
  state : EcatState
  log : List LogRecord

/-- handle_fan_control, src/app.py lines 267-296, as a transition on the
EtherCAT state and the log file. timestamp is the datetime value used by
log_action; exch is the bus environment passed through to send_to_device. -/
def handle_fan_control (trigger : Trigger) (kmh_value : ℚ) (exch : ExchangeOutcome)
    (timestamp : String) (st : EcatState) (log : List LogRecord) : FanControlResult :=
  let kmh_to_send : ℚ := match trigger with
    | Trigger.stopButton => 0
    | Trigger.applyButton => kmh_value
  let voltage_to_send : ℚ := match trigger with
    | Trigger.stopButton => 0
    | Trigger.applyButton => calculate_voltage kmh_value
  let output_kmh_msg := match trigger with
    | Trigger.stopButton => "🛑 Ventola fermata"
    | Trigger.applyButton => "✅ Velocità impostata: " ++ fmt2 kmh_to_send ++ " km/h"
  let output_volt_msg := match trigger with
    | Trigger.stopButton => "🔌 Tensione inviata: 0.00 V"
    | Trigger.applyButton => "🔌 Tensione da inviare: " ++ fmt2 voltage_to_send ++ " V"
  let r := send_to_device exch voltage_to_send st
  let output_volt_msg :=
    if r.1.toBool then output_volt_msg else output_volt_msg ++ " (Invio EtherCAT fallito!)"
  let log1 := log_action timestamp kmh_to_send voltage_to_send log
  { output_kmh_msg := output_kmh_msg
    output_volt_msg := output_volt_msg
    status_msg := r.2.1.ethercat_status_message
    state := r.2.1
    log := log1 }

/-! ### Claim-side definitions and concrete scenario states -/

/-- The first simulated interface of the C3 and C6 scenarios: it opens, but the
device scan finds only a non-matching slave. -/
def ifaceNoDevice : IfaceEnv :=
  { name := "eth0", openOk := true, descs := [{ vendor_id := 2, product_code := 5 }],
    mapOk := true, safeOpReached := true, opReached := true, initialOutput := [0, 0] }

/-- The second simulated interface of the C3 scenario: the expected EL4001 is
found and reaches OPERATIONAL. -/
def ifaceGood : IfaceEnv :=
  { name := "eth1", openOk := true,
    descs := [{ vendor_id := BECKHOFF_VENDOR_ID, product_code := BECKHOFF_AO_PRODUCT_CODE }],
    mapOk := true, safeOpReached := true, opReached := true, initialOutput := [0, 0] }

/-- A concrete healthy link state used by several witnesses: both handles
present and OPERATIONAL. -/
def demoHealthyState : EcatState :=
  { master := some ⟨"eth0", true⟩
    adecua_slave := some ⟨"eth0", SlaveState.operational, [0, 0]⟩
    ethercat_status_message := "EtherCAT: OK. Ultima tensione: 5.00 V." }

/-- The implicit invariant of C10: the master handle is absent exactly when the
slave handle is absent. -/
def handlesConsistent (st : EcatState) : Prop := st.master.isNone = st.adecua_slave.isNone

/-- The raw quantized value actually computed by send_to_device at lines
168-170: clamp, divide by MAX_VOLTAGE, scale by 32767, truncate with Python
int(), clamp to the 0..32767 range. -/
def codeRaw (voltage : ℚ) : ℤ :=
  max 0 (min (pyInt (max 0 (min voltage MAX_VOLTAGE) / MAX_VOLTAGE * 32767)) 32767)

/-- The raw quantized value as the C1 claim words it (spec section 4.2):
round-to-nearest instead of truncation. Ties follow Python round (ties to
even); the counterexample below is independent of the tie convention, since
both half-even and half-away rounding give 16384 at the tie value 16383.5. -/
def specRawRound (voltage : ℚ) : ℤ :=
  max 0 (min (roundHalfEven (max 0 (min voltage MAX_VOLTAGE) / MAX_VOLTAGE * 32767)) 32767)

/-- A healthy state whose status message is a recent bus-error report, not the
connected/operational message. -/
def soemErrorState : EcatState :=
  { master := some ⟨"eth0", true⟩
    adecua_slave := some ⟨"eth0", SlaveState.operational, [0, 0]⟩
    ethercat_status_message := "EtherCAT: Errore SOEM I/O! timeout" }

/-- A healthy state whose message already is the connected/operational message. -/
def connOkState : EcatState :=
  { master := some ⟨"eth0", true⟩
    adecua_slave := some ⟨"eth0", SlaveState.operational, [0, 0]⟩
    ethercat_status_message := connMsg }

/-! ### Helper lemmas -/

theorem calculate_voltage_clamp (kmh : ℚ) : calculate_voltage kmh = max 0 (min kmh 10) := by
  simp only [calculate_voltage, MAX_KMH, MAX_VOLTAGE]
  rw [div_mul_cancel₀ _ (by norm_num : (10 : ℚ) ≠ 0)]

theorem roundHalfEven_intCast (n : ℤ) : roundHalfEven ((n : ℚ)) = n := by
  unfold roundHalfEven
  rw [Int.floor_intCast]
  norm_num

theorem fmt2_eq_of_mul_hundred (q : ℚ) (c : ℤ) (h : q * 100 = (c : ℚ)) :
    fmt2 q =
      (if c < 0 then "-" ++ toString ((-c).toNat / 100) ++ "." ++ natPad2 ((-c).toNat % 100)
       else toString (c.toNat / 100) ++ "." ++ natPad2 (c.toNat % 100)) := by
  unfold fmt2
  rw [h, roundHalfEven_intCast]

theorem fmt2_twelve : fmt2 12 = "12.00" := by
  rw [fmt2_eq_of_mul_hundred 12 1200 (by norm_num)]
  decide

theorem fmt2_ten : fmt2 10 = "10.00" := by
  rw [fmt2_eq_of_mul_hundred 10 1000 (by norm_num)]
  decide

theorem fmt2_zero : fmt2 0 = "0.00" := by
  rw [fmt2_eq_of_mul_hundred 0 0 (by norm_num)]
  decide

/-! ### C7 and C8 -/

/-- C7: calculate_voltage clamps its input to the interval from 0 to MAX_KMH and
returns clamped/MAX_KMH*MAX_VOLTAGE, raising no error for out-of-range input
(it is a total function); in particular it maps 0 to 0, MAX_KMH to MAX_VOLTAGE
and MAX_KMH+5 to MAX_VOLTAGE. -/
theorem C7_voltage_mapper_formula :
    (∀ kmh : ℚ, calculate_voltage kmh = max 0 (min kmh MAX_KMH) / MAX_KMH * MAX_VOLTAGE) ∧
    calculate_voltage 0 = 0 ∧
    calculate_voltage MAX_KMH = MAX_VOLTAGE ∧
    calculate_voltage (MAX_KMH + 5) = MAX_VOLTAGE := by
  refine ⟨fun kmh => rfl, ?_, ?_, ?_⟩ <;>
    simp only [calculate_voltage_clamp, MAX_KMH, MAX_VOLTAGE] <;>
    rw [min_def, max_def] <;> norm_num

/-- C8: for every speed between -100 and 100 the computed voltage lies between
0 and MAX_VOLTAGE, and calculate_voltage is monotonically non-decreasing over
that range. -/
theorem C8_range_and_monotone :
    (∀ k : ℚ, -100 ≤ k → k ≤ 100 →
       0 ≤ calculate_voltage k ∧ calculate_voltage k ≤ MAX_VOLTAGE) ∧
    (∀ a b : ℚ, -100 ≤ a → a ≤ b → b ≤ 100 →
       calculate_voltage a ≤ calculate_voltage b) := by
  constructor
  · intro k _ _
    rw [calculate_voltage_clamp, MAX_VOLTAGE]
    exact ⟨le_max_left 0 _, max_le (by norm_num) (min_le_right k 10)⟩
  · intro a b _ hab _
    rw [calculate_voltage_clamp, calculate_voltage_clamp]
    exact max_le_max le_rfl (min_le_min hab le_rfl)

/-- C8 witness: the theorem instantiated at concrete speeds 3 and 5. -/
theorem C8_range_and_monotone_witness :
    (0 ≤ calculate_voltage 3 ∧ calculate_voltage 3 ≤ MAX_VOLTAGE) ∧
    calculate_voltage 3 ≤ calculate_voltage 5 :=
  ⟨C8_range_and_monotone.1 3 (by norm_num) (by norm_num),
   C8_range_and_monotone.2 3 5 (by norm_num) (by norm_num) (by norm_num)⟩

/-! ### Bring-up loop lemmas -/

theorem tryInterface_some_iface (e : IfaceEnv) (m : MasterHandle) (s : SlaveHandle)
    (h : tryInterface e = some (m, s)) : m.iface = e.name ∧ s.iface = e.name := by
  unfold tryInterface at h
  split at h
  · exact Option.noConfusion h
  split at h
  · exact Option.noConfusion h
  split at h
  · exact Option.noConfusion h
  split at h
  · exact Option.noConfusion h
  split at h
  · exact Option.noConfusion h
  injection h with h1
  injection h1 with hm hs
  subst hm
  subst hs
  exact ⟨rfl, rfl⟩

theorem tryInterfaces_all_none (l : List IfaceEnv) (h : ∀ x ∈ l, tryInterface x = none) :
    tryInterfaces l = (none, l.map IfaceEnv.name) := by
  induction l with
  | nil => rfl
  | cons e rest ih =>
    have he : tryInterface e = none := h e (by simp)
    have hr := ih (fun x hx => h x (by simp [hx]))
    simp [tryInterfaces, he, hr]

theorem tryInterfaces_first_success (pre : List IfaceEnv) (e : IfaceEnv)
    (post : List IfaceEnv) (p : MasterHandle × SlaveHandle)
    (hpre : ∀ x ∈ pre, tryInterface x = none) (he : tryInterface e = some p) :
    tryInterfaces (pre ++ e :: post) = (some p, pre.map IfaceEnv.name ++ [e.name]) := by
  induction pre with
  | nil => simp [tryInterfaces, he]
  | cons a rest ih =>
    have ha : tryInterface a = none := hpre a (by simp)
    have hr := ih (fun x hx => hpre x (by simp [hx]))
    simp [tryInterfaces, ha, hr]

/-! ### C3 -/

/-- C3: bring_up tries interfaces in enumeration order; on the first interface
whose bring-up attempt succeeds (expected device found, SAFE_OP then OPERATIONAL
reached) it commits the handle pair of that interface as the active pair and returns
success immediately, having attempted only the interfaces up to and including
the winning one; the committed handles carry the name of the winning interface. -/
theorem C3_first_working_interface_wins (pre : List IfaceEnv) (e : IfaceEnv)
    (post : List IfaceEnv) (p : MasterHandle × SlaveHandle) (st : EcatState)
    (hpre : ∀ x ∈ pre, tryInterface x = none) (he : tryInterface e = some p) :
    initialize_ethercat_device_logic (pre ++ e :: post) st =
      (InitExit.success,
       { master := some p.1, adecua_slave := some p.2,
         ethercat_status_message := st.ethercat_status_message },
       pre.map IfaceEnv.name ++ [e.name]) ∧
    p.1.iface = e.name ∧ p.2.iface = e.name := by
  refine ⟨?_, tryInterface_some_iface e p.1 p.2 he⟩
  have hne : (pre ++ e :: post).isEmpty = false := by cases pre <;> rfl
  unfold initialize_ethercat_device_logic
  rw [tryInterfaces_first_success pre e post p hpre he, hne]
  split <;> rfl

/-- C3 witness: interface 1 has no matching device, interface 2 succeeds; the
committed pair belongs to interface 2 (eth1), never interface 1 (eth0). -/
theorem C3_first_working_interface_wins_witness :
    (∀ x ∈ [ifaceNoDevice], tryInterface x = none) ∧
    tryInterface ifaceGood =
      some (⟨"eth1", true⟩, ⟨"eth1", SlaveState.operational, [0, 0]⟩) ∧
    (initialize_ethercat_device_logic ([ifaceNoDevice] ++ ifaceGood :: []) initialState =
      (InitExit.success,
       { master := some ⟨"eth1", true⟩,
         adecua_slave := some ⟨"eth1", SlaveState.operational, [0, 0]⟩,
         ethercat_status_message := initialState.ethercat_status_message },
       [ifaceNoDevice].map IfaceEnv.name ++ [ifaceGood.name]) ∧
     (⟨"eth1", true⟩ : MasterHandle).iface = ifaceGood.name ∧
     (⟨"eth1", SlaveState.operational, [0, 0]⟩ : SlaveHandle).iface = ifaceGood.name) ∧
    ifaceGood.name ≠ ifaceNoDevice.name :=
  ⟨by decide, by decide,
   C3_first_working_interface_wins [ifaceNoDevice] ifaceGood []
     (⟨"eth1", true⟩, ⟨"eth1", SlaveState.operational, [0, 0]⟩) initialState
     (by decide) (by decide),
   by decide⟩

/-! ### C6 -/

/-- C6: on an empty interface list bring_up fails through the distinct
NoInterfacesFound exit, attempting no interface; on a non-empty list in which no
interface works it attempts every interface and fails through the distinct
NoWorkingInterfaceFound exit with both handles cleared; the two exits are
distinct. -/
theorem C6_distinct_bringup_failures :
    (∀ st : EcatState,
       (initialize_ethercat_device_logic [] st).1 = InitExit.noInterfacesFound ∧
       (initialize_ethercat_device_logic [] st).2.2 = []) ∧
    (∀ (ifs : List IfaceEnv) (st : EcatState), ifs ≠ [] →
       (∀ x ∈ ifs, tryInterface x = none) →
       (initialize_ethercat_device_logic ifs st).1 = InitExit.noWorkingInterfaceFound ∧
       (initialize_ethercat_device_logic ifs st).2.1.master = none ∧
       (initialize_ethercat_device_logic ifs st).2.1.adecua_slave = none ∧
       (initialize_ethercat_device_logic ifs st).2.2 = ifs.map IfaceEnv.name) ∧
    InitExit.noInterfacesFound ≠ InitExit.noWorkingInterfaceFound := by
  refine ⟨fun st => ⟨rfl, rfl⟩, ?_, by decide⟩
  intro ifs st hne hall
  have hempty : ifs.isEmpty = false := by
    cases ifs with
    | nil => exact absurd rfl hne
    | cons a l => rfl
  unfold initialize_ethercat_device_logic
  rw [tryInterfaces_all_none ifs hall, hempty]
  split <;> exact ⟨rfl, rfl, rfl, rfl⟩

/-- C6 witness: the empty list at the initial state, and a singleton list whose
interface has no matching device. -/
theorem C6_distinct_bringup_failures_witness :
    ((initialize_ethercat_device_logic [] initialState).1 = InitExit.noInterfacesFound ∧
     (initialize_ethercat_device_logic [] initialState).2.2 = []) ∧
    (([ifaceNoDevice] : List IfaceEnv) ≠ [] ∧
     (initialize_ethercat_device_logic [ifaceNoDevice] initialState).1 =
       InitExit.noWorkingInterfaceFound ∧
     (initialize_ethercat_device_logic [ifaceNoDevice] initialState).2.1.master = none ∧
     (initialize_ethercat_device_logic [ifaceNoDevice] initialState).2.1.adecua_slave = none ∧
     (initialize_ethercat_device_logic [ifaceNoDevice] initialState).2.2 =
       [ifaceNoDevice].map IfaceEnv.name) :=
  ⟨C6_distinct_bringup_failures.1 initialState,
   by decide,
   C6_distinct_bringup_failures.2.1 [ifaceNoDevice] initialState (by decide) (by decide)⟩

/-! ### C4 -/

/-- C4: when the master or slave handle is absent, or either does not report
OPERATIONAL, send_to_device takes one of the two NotReady early returns (a
non-exceptional False result), performs no bus-level I/O action, and leaves both
handles — hence the OutputFrame of the slave — untouched. -/
theorem C4_not_ready_no_io (st : EcatState) (exch : ExchangeOutcome) (v : ℚ)
    (h : linkReady st = false) :
    ((send_to_device exch v st).1 = SendOutcome.notReadyNoHandles ∨
     (send_to_device exch v st).1 = SendOutcome.notReadyNotOperational) ∧
    (send_to_device exch v st).1.toBool = false ∧
    (send_to_device exch v st).2.2 = [] ∧
    (send_to_device exch v st).2.1.master = st.master ∧
    (send_to_device exch v st).2.1.adecua_slave = st.adecua_slave := by
  rcases hm : st.master with _ | m
  · simp [send_to_device, hm, SendOutcome.toBool]
  rcases hs : st.adecua_slave with _ | s
  · simp [send_to_device, hm, hs, SendOutcome.toBool]
  simp only [linkReady, hm, hs, Bool.and_eq_false_iff] at h
  rcases h with h | h <;>
    simp [send_to_device, hm, hs, h, SendOutcome.toBool]

/-- C4 witness: the initial state has no handles; send_to_device on it is
NotReady and performs no I/O. -/
theorem C4_not_ready_no_io_witness :
    linkReady initialState = false ∧
    (((send_to_device ExchangeOutcome.ok 5 initialState).1 = SendOutcome.notReadyNoHandles ∨
      (send_to_device ExchangeOutcome.ok 5 initialState).1 = SendOutcome.notReadyNotOperational) ∧
     (send_to_device ExchangeOutcome.ok 5 initialState).1.toBool = false ∧
     (send_to_device ExchangeOutcome.ok 5 initialState).2.2 = [] ∧
     (send_to_device ExchangeOutcome.ok 5 initialState).2.1.master = initialState.master ∧
     (send_to_device ExchangeOutcome.ok 5 initialState).2.1.adecua_slave =
       initialState.adecua_slave) :=
  ⟨rfl, C4_not_ready_no_io initialState ExchangeOutcome.ok 5 rfl⟩

/-! ### C5 -/

theorem check_invokes_bringup (interfaces : List IfaceEnv) (ts : String) (st : EcatState)
    (h : linkReady st = false) : (check_ethercat_status interfaces ts st).2 = true := by
  unfold check_ethercat_status
  rw [h]
  simp only [Bool.not_false, if_true]
  split <;> rfl

/-- C5: a bus-level error during the cyclic send/receive exchange inside
send_to_device clears both the master and the slave handle before the failure
result is returned, and a subsequent check_ethercat_status on the resulting
state finds the link unhealthy and invokes a fresh
initialize_ethercat_device_logic. -/
theorem C5_bus_error_tears_down (st : EcatState) (m : MasterHandle) (s : SlaveHandle)
    (v : ℚ) (exch : ExchangeOutcome) (interfaces : List IfaceEnv) (timeStr : String)
    (hm : st.master = some m) (hs : st.adecua_slave = some s)
    (hmo : m.reportsOperational = true) (hso : s.state = SlaveState.operational)
    (hexch : exch ≠ ExchangeOutcome.ok) :
    (send_to_device exch v st).1 = SendOutcome.busIOError ∧
    (send_to_device exch v st).1.toBool = false ∧
    (send_to_device exch v st).2.1.master = none ∧
    (send_to_device exch v st).2.1.adecua_slave = none ∧
    (check_ethercat_status interfaces timeStr (send_to_device exch v st).2.1).2 = true := by
  have hsend : (send_to_device exch v st).2.1.master = none ∧
      (send_to_device exch v st).2.1.adecua_slave = none ∧
      (send_to_device exch v st).1 = SendOutcome.busIOError := by
    cases exch with
    | ok => exact absurd rfl hexch
    | failSend msg => simp [send_to_device, hm, hs, hmo, hso]
    | failReceive msg => simp [send_to_device, hm, hs, hmo, hso]
  have hready : linkReady (send_to_device exch v st).2.1 = false := by
    simp [linkReady, hsend.1]
  exact ⟨hsend.2.2, by rw [hsend.2.2]; rfl, hsend.1, hsend.2.1,
    check_invokes_bringup interfaces timeStr _ hready⟩

/-- C5 witness: a send failure at the cyclic exchange on a concrete healthy
state tears down both handles and the next periodic check re-runs bring-up. -/
theorem C5_bus_error_tears_down_witness :
    demoHealthyState.master = some ⟨"eth0", true⟩ ∧
    demoHealthyState.adecua_slave = some ⟨"eth0", SlaveState.operational, [0, 0]⟩ ∧
    ExchangeOutcome.failSend "timeout" ≠ ExchangeOutcome.ok ∧
    ((send_to_device (ExchangeOutcome.failSend "timeout") 5 demoHealthyState).1 =
       SendOutcome.busIOError ∧
     (send_to_device (ExchangeOutcome.failSend "timeout") 5 demoHealthyState).1.toBool = false ∧
     (send_to_device (ExchangeOutcome.failSend "timeout") 5 demoHealthyState).2.1.master = none ∧
     (send_to_device (ExchangeOutcome.failSend "timeout") 5 demoHealthyState).2.1.adecua_slave =
       none ∧
     (check_ethercat_status [] "10:00:00"
        (send_to_device (ExchangeOutcome.failSend "timeout") 5 demoHealthyState).2.1).2 = true) :=
  ⟨rfl, rfl, by decide,
   C5_bus_error_tears_down demoHealthyState ⟨"eth0", true⟩
     ⟨"eth0", SlaveState.operational, [0, 0]⟩ 5 (ExchangeOutcome.failSend "timeout") []
     "10:00:00" rfl rfl rfl rfl (by decide)⟩

/-! ### C10 -/

theorem initialize_preserves_consistent (ifs : List IfaceEnv) (st : EcatState)
    (h : handlesConsistent st) :
    handlesConsistent (initialize_ethercat_device_logic ifs st).2.1 := by
  unfold initialize_ethercat_device_logic
  rcases hm : st.master with _ | m
  · have hs : st.adecua_slave.isNone = true := by
      rw [← h, hm]; rfl
    rcases ifs with _ | ⟨e, rest⟩
    · simpa [handlesConsistent, hm] using hs.symm
    · simp only [hm, Option.isSome_none, if_false, List.isEmpty_cons, Bool.false_eq_true]
      rcases htry : (tryInterfaces (e :: rest)).1 with _ | p <;>
        simp [htry, handlesConsistent, hm, ← hs]
  · rcases ifs with _ | ⟨e, rest⟩
    · simp [hm, handlesConsistent]
    · simp only [hm, Option.isSome_some, if_true, List.isEmpty_cons, Bool.false_eq_true]
      rcases htry : (tryInterfaces (e :: rest)).1 with _ | p <;>
        simp [htry, handlesConsistent]

theorem send_preserves_consistent (exch : ExchangeOutcome) (v : ℚ) (st : EcatState)
    (h : handlesConsistent st) :
    handlesConsistent (send_to_device exch v st).2.1 := by
  rcases hm : st.master with _ | m
  · simpa [send_to_device, hm, handlesConsistent] using h
  rcases hs : st.adecua_slave with _ | s
  · simp [send_to_device, hm, hs, handlesConsistent] at h
  by_cases hcond : (!m.reportsOperational || !(s.state == SlaveState.operational)) = true
  · simp [send_to_device, hm, hs, hcond, handlesConsistent]
  · have hcond2 : (!m.reportsOperational || !(s.state == SlaveState.operational)) = false := by
      revert hcond
      cases !m.reportsOperational || !(s.state == SlaveState.operational) <;> simp
    rcases exch with _ | msg | msg <;>
      simp [send_to_device, hm, hs, hcond2, handlesConsistent]

theorem check_preserves_consistent (ifs : List IfaceEnv) (ts : String) (st : EcatState)
    (h : handlesConsistent st) :
    handlesConsistent (check_ethercat_status ifs ts st).1 := by
  unfold check_ethercat_status
  by_cases hr : linkReady st = true
  · simp only [hr, Bool.not_true, Bool.false_eq_true, if_false]
    split <;> simpa [handlesConsistent]
  · have hr' : linkReady st = false := by
      cases hv : linkReady st
      · rfl
      · exact absurd hv hr
    have := initialize_preserves_consistent ifs st h
    simp only [hr', Bool.not_false, if_true]
    split <;> simpa [handlesConsistent] using this

/-- C10: each completed public operation (bring-up, voltage write, periodic
check) preserves the invariant that the master handle is absent exactly when
the slave handle is absent — the pair is committed together and cleared
together. -/
theorem C10_handles_all_or_nothing :
    (∀ (ifs : List IfaceEnv) (st : EcatState), handlesConsistent st →
       handlesConsistent (initialize_ethercat_device_logic ifs st).2.1) ∧
    (∀ (exch : ExchangeOutcome) (v : ℚ) (st : EcatState), handlesConsistent st →
       handlesConsistent (send_to_device exch v st).2.1) ∧
    (∀ (ifs : List IfaceEnv) (ts : String) (st : EcatState), handlesConsistent st →
       handlesConsistent (check_ethercat_status ifs ts st).1) :=
  ⟨initialize_preserves_consistent, send_preserves_consistent, check_preserves_consistent⟩

/-- C10 witness: the invariant holds at the initial state and is preserved by
each of the three operations applied to it. -/
theorem C10_handles_all_or_nothing_witness :
    handlesConsistent initialState ∧
    handlesConsistent (initialize_ethercat_device_logic [ifaceGood] initialState).2.1 ∧
    handlesConsistent (send_to_device ExchangeOutcome.ok 5 initialState).2.1 ∧
    handlesConsistent (check_ethercat_status [] "t" initialState).1 :=
  ⟨rfl,
   C10_handles_all_or_nothing.1 [ifaceGood] initialState rfl,
   C10_handles_all_or_nothing.2.1 ExchangeOutcome.ok 5 initialState rfl,
   C10_handles_all_or_nothing.2.2 [] "t" initialState rfl⟩

/-! ### C1 -/

theorem send_healthy_ok (v : ℚ) (st : EcatState) (m : MasterHandle) (s : SlaveHandle)
    (hm : st.master = some m) (hs : st.adecua_slave = some s)
    (hmo : m.reportsOperational = true) (hso : s.state = SlaveState.operational) :
    send_to_device ExchangeOutcome.ok v st =
      (SendOutcome.okSent,
       { master := some m
         adecua_slave :=
           some { s with output := writeOutputSlice s.output (toBytesLE2Signed (codeRaw v)) }
         ethercat_status_message :=
           "EtherCAT: OK. Ultima tensione: " ++ fmt2 (max 0 (min v MAX_VOLTAGE)) ++ " V." },
       [BusAction.writeOutputFrame (toBytesLE2Signed (codeRaw v)), BusAction.sendProcessdata,
        BusAction.receiveProcessdata]) := by
  simp [send_to_device, hm, hs, hmo, hso, codeRaw]

theorem clampFive : max 0 (min (5 : ℚ) MAX_VOLTAGE) / MAX_VOLTAGE * 32767 = 32767 / 2 := by
  rw [MAX_VOLTAGE]
  rw [min_def, max_def]
  norm_num

theorem codeRaw_five : codeRaw 5 = 16383 := by
  rw [codeRaw, clampFive, pyInt, if_pos (by norm_num : (0 : ℚ) ≤ 32767 / 2)]
  have h2 : ⌊(32767 : ℚ) / 2⌋ = 16383 := by norm_num
  rw [h2]
  decide

theorem specRawRound_five : specRawRound 5 = 16384 := by
  rw [specRawRound, clampFive]
  have h2 : roundHalfEven ((32767 : ℚ) / 2) = 16384 := by
    unfold roundHalfEven
    have hf : ⌊(32767 : ℚ) / 2⌋ = 16383 := by norm_num
    rw [hf]
    norm_num
  rw [h2]
  decide

/-- C1 counterexample: at input voltage 5.0 on a healthy link the program
truncates 16383.5 down to raw 16383 (Python int()) and writes little-endian
bytes [255, 63] into the OutputFrame, whereas the claimed round-to-nearest
quantization gives raw 16384 with bytes [0, 64]; the claim is false as stated. -/
theorem C1_counterexample_trunc_vs_round :
    (send_to_device ExchangeOutcome.ok 5 demoHealthyState).2.2 =
      [BusAction.writeOutputFrame [255, 63], BusAction.sendProcessdata,
       BusAction.receiveProcessdata] ∧
    specRawRound 5 = 16384 ∧
    toBytesLE2Signed (specRawRound 5) = [0, 64] ∧
    BusAction.writeOutputFrame ([255, 63] : List ℕ) ≠
      BusAction.writeOutputFrame (toBytesLE2Signed (specRawRound 5)) := by
  have h1 := send_healthy_ok 5 demoHealthyState ⟨"eth0", true⟩
    ⟨"eth0", SlaveState.operational, [0, 0]⟩ rfl rfl rfl rfl
  have h2 : toBytesLE2Signed (codeRaw 5) = [255, 63] := by
    rw [codeRaw_five]
    decide
  refine ⟨?_, specRawRound_five, ?_, ?_⟩
  · rw [h1, h2]
  · rw [specRawRound_five]
    decide
  · rw [specRawRound_five]
    decide

theorem toBytesLE2Signed_of_bounds (n : ℤ) (h0 : 0 ≤ n) (h1 : n ≤ 32767) :
    toBytesLE2Signed n = [n.toNat % 256, n.toNat / 256] := by
  unfold toBytesLE2Signed
  have hm : n % 65536 = n := by omega
  have e1 : (n % 256).toNat = n.toNat % 256 := by omega
  have e2 : (n / 256).toNat = n.toNat / 256 := by omega
  rw [hm, e1, e2]

/-- C1 (amended): for every input voltage on a healthy link, write_voltage
clamps the voltage to [0, MAX_VOLTAGE], quantizes it by truncation toward zero
(Python int(), not round-to-nearest), clamps the raw value to [0, 32767], and
writes its 2-byte little-endian encoding into the OutputFrame before the cyclic
exchange; the two bytes decode back to the raw value. -/
theorem C1_clamp_trunc_encode (v : ℚ) (st : EcatState) (m : MasterHandle)
    (s : SlaveHandle) (hm : st.master = some m) (hs : st.adecua_slave = some s)
    (hmo : m.reportsOperational = true) (hso : s.state = SlaveState.operational) :
    (send_to_device ExchangeOutcome.ok v st).2.2 =
      [BusAction.writeOutputFrame (toBytesLE2Signed (codeRaw v)), BusAction.sendProcessdata,
       BusAction.receiveProcessdata] ∧
    (send_to_device ExchangeOutcome.ok v st).2.1.adecua_slave =
      some { s with output := writeOutputSlice s.output (toBytesLE2Signed (codeRaw v)) } ∧
    codeRaw v = max 0 (min (pyInt (max 0 (min v MAX_VOLTAGE) / MAX_VOLTAGE * 32767)) 32767) ∧
    0 ≤ codeRaw v ∧ codeRaw v ≤ 32767 ∧
    toBytesLE2Signed (codeRaw v) = [(codeRaw v).toNat % 256, (codeRaw v).toNat / 256] ∧
    (codeRaw v).toNat % 256 + 256 * ((codeRaw v).toNat / 256) = (codeRaw v).toNat := by
  have hb0 : 0 ≤ codeRaw v := le_max_left 0 _
  have hb1 : codeRaw v ≤ 32767 := max_le (by norm_num) (min_le_right _ _)
  have h1 := send_healthy_ok v st m s hm hs hmo hso
  refine ⟨by rw [h1], by rw [h1], rfl, hb0, hb1,
    toBytesLE2Signed_of_bounds _ hb0 hb1, by omega⟩

/-- C1 witness: the amended theorem instantiated at voltage 5 on the concrete
healthy state. -/
theorem C1_clamp_trunc_encode_witness :
    demoHealthyState.master = some ⟨"eth0", true⟩ ∧
    demoHealthyState.adecua_slave = some ⟨"eth0", SlaveState.operational, [0, 0]⟩ ∧
    ((send_to_device ExchangeOutcome.ok 5 demoHealthyState).2.2 =
      [BusAction.writeOutputFrame (toBytesLE2Signed (codeRaw 5)), BusAction.sendProcessdata,
       BusAction.receiveProcessdata] ∧
     (send_to_device ExchangeOutcome.ok 5 demoHealthyState).2.1.adecua_slave =
       some { iface := "eth0", state := SlaveState.operational,
              output := writeOutputSlice [0, 0] (toBytesLE2Signed (codeRaw 5)) } ∧
     codeRaw 5 =
       max 0 (min (pyInt (max 0 (min 5 MAX_VOLTAGE) / MAX_VOLTAGE * 32767)) 32767) ∧
     0 ≤ codeRaw 5 ∧ codeRaw 5 ≤ 32767 ∧
     toBytesLE2Signed (codeRaw 5) = [(codeRaw 5).toNat % 256, (codeRaw 5).toNat / 256] ∧
     (codeRaw 5).toNat % 256 + 256 * ((codeRaw 5).toNat / 256) = (codeRaw 5).toNat) :=
  ⟨rfl, rfl,
   C1_clamp_trunc_encode 5 demoHealthyState ⟨"eth0", true⟩
     ⟨"eth0", SlaveState.operational, [0, 0]⟩ rfl rfl rfl rfl⟩

/-! ### C2 -/

theorem calculate_voltage_twelve : calculate_voltage 12 = 10 := by
  rw [calculate_voltage_clamp, min_def, max_def]
  norm_num

/-- C2 counterexample: apply_speed(12.0) with MAX_KMH = 10 appends a log record
whose speed field is "12.00" — the raw requested speed — not "10.00" as the
claim states (the voltage field is "10.00"). -/
theorem C2_counterexample_logged_speed_not_clamped :
    (handle_fan_control Trigger.applyButton 12 ExchangeOutcome.ok "T" initialState []).log =
      [{ timestamp := "T", kmh := "12.00", voltage := "10.00" }] ∧
    ({ timestamp := "T", kmh := "12.00", voltage := "10.00" } : LogRecord) ≠
      { timestamp := "T", kmh := "10.00", voltage := "10.00" } := by
  constructor
  · simp [handle_fan_control, log_action, calculate_voltage_twelve, fmt2_twelve, fmt2_ten]
  · decide

/-- C2 (amended): every handle_fan_control call appends exactly one record to
the log, whether or not write_voltage succeeded; for the apply trigger the
speed field of the record is the raw requested speed formatted to two decimals (not
the clamped speed) and the voltage field is the computed clamped voltage; in
particular apply_speed(12.0) with MAX_KMH = 10 logs speed "12.00" and voltage
"10.00", and the stop trigger always logs ("0.00", "0.00"). -/
theorem C2_log_appended_regardless (kmh : ℚ) (exch : ExchangeOutcome) (ts : String)
    (st : EcatState) (log : List LogRecord) :
    (handle_fan_control Trigger.applyButton kmh exch ts st log).log =
      log ++ [{ timestamp := ts, kmh := fmt2 kmh, voltage := fmt2 (calculate_voltage kmh) }] ∧
    (handle_fan_control Trigger.stopButton kmh exch ts st log).log =
      log ++ [{ timestamp := ts, kmh := "0.00", voltage := "0.00" }] ∧
    (handle_fan_control Trigger.applyButton 12 exch ts st log).log =
      log ++ [{ timestamp := ts, kmh := "12.00", voltage := "10.00" }] := by
  refine ⟨rfl, ?_, ?_⟩
  · simp [handle_fan_control, log_action, fmt2_zero]
  · simp [handle_fan_control, log_action, calculate_voltage_twelve, fmt2_twelve, fmt2_ten]

/-! ### C9 -/

/-- C9 counterexample: with a healthy link and a current status message that
does NOT contain the connected-and-operational phrase (a recent, more specific
bus-error message), check_ethercat_status DOES overwrite LinkStatus with the
connected/operational message — the converse of the guard the claim states. -/
theorem C9_counterexample_guard_inverted :
    linkReady soemErrorState = true ∧
    strIn connPhrase soemErrorState.ethercat_status_message = false ∧
    (check_ethercat_status [] "t" soemErrorState).1.ethercat_status_message = connMsg ∧
    soemErrorState.ethercat_status_message ≠ connMsg := by
  exact ⟨rfl, by decide, by decide, by decide⟩

/-- C9 (amended): when check_ethercat_status finds the link healthy it does not
invoke bring-up, and it overwrites LinkStatus with the connected/operational
message exactly when the current message does not already contain the
connected-and-operational phrase; when the current message does contain the
phrase — in particular when it already is the connected/operational message —
the state is left unchanged, making the update idempotent. -/
theorem C9_healthy_status_update (st : EcatState) (ifs : List IfaceEnv) (ts : String)
    (h : linkReady st = true) :
    (check_ethercat_status ifs ts st).2 = false ∧
    (strIn connPhrase st.ethercat_status_message = false →
      (check_ethercat_status ifs ts st).1 = { st with ethercat_status_message := connMsg }) ∧
    (strIn connPhrase st.ethercat_status_message = true →
      (check_ethercat_status ifs ts st).1 = st) ∧
    (st.ethercat_status_message = connMsg →
      (check_ethercat_status ifs ts st).1 = st) := by
  have hred : check_ethercat_status ifs ts st =
      if !(strIn connPhrase st.ethercat_status_message) then
        ({ st with ethercat_status_message := connMsg }, false)
      else (st, false) := by
    unfold check_ethercat_status
    rw [h]
    simp only [Bool.not_true, Bool.false_eq_true, if_false]
  refine ⟨by rw [hred]; split <;> rfl, fun hin => by rw [hred, hin]; rfl,
    fun hin => by rw [hred, hin]; rfl, fun hmsg => ?_⟩
  have hin : strIn connPhrase st.ethercat_status_message = true := by
    rw [hmsg]
    decide
  rw [hred, hin]
  rfl

/-- C9 witness: the amended theorem instantiated at a concrete healthy state
whose message already is the connected/operational message. -/
theorem C9_healthy_status_update_witness :
    linkReady connOkState = true ∧
    ((check_ethercat_status [] "t" connOkState).2 = false ∧
     (strIn connPhrase connOkState.ethercat_status_message = false →
       (check_ethercat_status [] "t" connOkState).1 =
         { connOkState with ethercat_status_message := connMsg }) ∧
     (strIn connPhrase connOkState.ethercat_status_message = true →
       (check_ethercat_status [] "t" connOkState).1 = connOkState) ∧
     (connOkState.ethercat_status_message = connMsg →
       (check_ethercat_status [] "t" connOkState).1 = connOkState)) :=
  ⟨rfl, C9_healthy_status_update connOkState [] "t" rfl⟩
end Ceama
